import Mathlib

/-! The material system header `include/aiMaterial.h`.

A shallow embedding of the material property header of the Open Asset Import
Library: its enumerations, the two data structures, the table of material
keys (preprocessor string macros) and the inline single-value accessors.

Conventions of the embedding.

* An enumeration is an inductive type with one constructor per enumerator,
  in source order, together with a `code` function giving the enumerator's
  integer value.
* An object-like string macro is a `String` constant.
* A function-like key macro such as
  `AI_MATKEY_TEXTURE_DIFFUSE(N) "$tex.file.diffuse["#N"]"` uses the
  preprocessor's stringification operator: `#N` is the spelling of the
  argument, and adjacent string literals are concatenated.  The macro is
  therefore a function of the argument's spelling, a `String`.  A channel
  index is passed as its decimal numeral, `toString N`.
* A buffer is the list of its bytes; an element of a float or int array is a
  group of `sizeof` consecutive bytes.
* The functions that the header only declares (`aiGetMaterialProperty`,
  `aiGetMaterialFloatArray`, `aiGetMaterialIntegerArray`) have no body in
  the header.  The inline wrappers take the array function they call as a
  parameter; a model of the declared functions written from the
  specification is given separately and marked as such.
-/

namespace Assimp

/-! ## Enumerations -/

/-- Type identifiers for use within the material system (`enum aiPropertyTypeInfo`). -/
inductive aiPropertyTypeInfo
  | aiPTI_Float
  | aiPTI_String
  | aiPTI_Integer
  | aiPTI_Buffer
  deriving DecidableEq, Repr

/-- Integer value of each `aiPropertyTypeInfo` enumerator. -/
def aiPropertyTypeInfo.code : aiPropertyTypeInfo → Nat
  | .aiPTI_Float => 0x1
  | .aiPTI_String => 0x3
  | .aiPTI_Integer => 0x4
  | .aiPTI_Buffer => 0x5

/-- Every enumerator of `aiPropertyTypeInfo`, in source order. -/
def aiPropertyTypeInfo.all : List aiPropertyTypeInfo :=
  [.aiPTI_Float, .aiPTI_String, .aiPTI_Integer, .aiPTI_Buffer]

/-- Texture operations (`enum aiTextureOp`). -/
inductive aiTextureOp
  | aiTextureOp_Multiply
  | aiTextureOp_Add
  | aiTextureOp_Subtract
  | aiTextureOp_Divide
  | aiTextureOp_SmoothAdd
  | aiTextureOp_SignedAdd
  deriving DecidableEq, Repr

/-- Integer value of each `aiTextureOp` enumerator. -/
def aiTextureOp.code : aiTextureOp → Nat
  | .aiTextureOp_Multiply => 0x0
  | .aiTextureOp_Add => 0x1
  | .aiTextureOp_Subtract => 0x2
  | .aiTextureOp_Divide => 0x3
  | .aiTextureOp_SmoothAdd => 0x4
  | .aiTextureOp_SignedAdd => 0x5

/-- Every enumerator of `aiTextureOp`, in source order. -/
def aiTextureOp.all : List aiTextureOp :=
  [.aiTextureOp_Multiply, .aiTextureOp_Add, .aiTextureOp_Subtract,
   .aiTextureOp_Divide, .aiTextureOp_SmoothAdd, .aiTextureOp_SignedAdd]

/-- Shading models supported by the library (`enum aiShadingMode`). -/
inductive aiShadingMode
  | aiShadingMode_Flat
  | aiShadingMode_Gouraud
  | aiShadingMode_Phong
  | aiShadingMode_Blinn
  | aiShadingMode_Toon
  | aiShadingMode_OrenNayar
  | aiShadingMode_Minnaert
  | aiShadingMode_CookTorrance
  | aiShadingMode_NoShading
  deriving DecidableEq, Repr

/-- Integer value of each `aiShadingMode` enumerator. -/
def aiShadingMode.code : aiShadingMode → Nat
  | .aiShadingMode_Flat => 0x1
  | .aiShadingMode_Gouraud => 0x2
  | .aiShadingMode_Phong => 0x3
  | .aiShadingMode_Blinn => 0x4
  | .aiShadingMode_Toon => 0x5
  | .aiShadingMode_OrenNayar => 0x6
  | .aiShadingMode_Minnaert => 0x7
  | .aiShadingMode_CookTorrance => 0x8
  | .aiShadingMode_NoShading => 0x8

/-- Every enumerator of `aiShadingMode`, in source order. -/
def aiShadingMode.all : List aiShadingMode :=
  [.aiShadingMode_Flat, .aiShadingMode_Gouraud, .aiShadingMode_Phong,
   .aiShadingMode_Blinn, .aiShadingMode_Toon, .aiShadingMode_OrenNayar,
   .aiShadingMode_Minnaert, .aiShadingMode_CookTorrance, .aiShadingMode_NoShading]

/-! ## Data structures -/

/-- Data structure for a single property inside a material
(`struct aiMaterialProperty`).  `mData` is the binary buffer, one `Nat` per byte. -/
structure aiMaterialProperty where
  /-- Name of the property (key); keys are case insensitive. -/
  mKey : String
  /-- Size of the buffer `mData` is pointing to, in bytes. -/
  mDataLength : Nat
  /-- Type information for the property. -/
  mType : aiPropertyTypeInfo
  /-- Binary buffer holding the property's value. -/
  mData : List Nat
  deriving DecidableEq, Repr

/-- Data structure for a material (`struct aiMaterial`). -/
structure aiMaterial where
  /-- List of all material properties loaded. -/
  mProperties : List aiMaterialProperty
  /-- Number of properties loaded. -/
  mNumProperties : Nat
  /-- Number of property slots allocated. -/
  mNumAllocated : Nat
  deriving DecidableEq, Repr

/-! ## Bare material keys -/

def AI_MATKEY_NAME : String := "$mat.name"
def AI_MATKEY_SHADING_MODEL : String := "$mat.shadingm"
def AI_MATKEY_ENABLE_WIREFRAME : String := "$mat.wireframe"
def AI_MATKEY_OPACITY : String := "$mat.opacity"
def AI_MATKEY_BUMPSCALING : String := "$mat.bumpscaling"
def AI_MATKEY_SHININESS : String := "$mat.shininess"
def AI_MATKEY_SHININESS_STRENGTH : String := "$mat.shinpercent"
def AI_MATKEY_COLOR_DIFFUSE : String := "$clr.diffuse"
def AI_MATKEY_COLOR_AMBIENT : String := "$clr.ambient"
def AI_MATKEY_COLOR_SPECULAR : String := "$clr.specular"
def AI_MATKEY_COLOR_EMISSIVE : String := "$clr.emissive"
def AI_MATKEY_ORENNAYAR_ROUGHNESS : String := "$shading.orennayar.roughness"
def AI_MATKEY_MINNAERT_DARKNESS : String := "$shading.minnaert.darkness"
def AI_MATKEY_COOK_TORRANCE_REFRACTI : String := "$shading.cookt.refracti"
def AI_MATKEY_COOK_TORRANCE_PARAM : String := "$shading.cookt.param"
def AI_MATKEY_GLOBAL_BACKGROUND_IMAGE : String := "$global.bg.image2d"

/-- The sixteen bare key constants of the header, in source order. -/
def bareKeys : List String :=
  [AI_MATKEY_NAME, AI_MATKEY_SHADING_MODEL, AI_MATKEY_ENABLE_WIREFRAME,
   AI_MATKEY_OPACITY, AI_MATKEY_BUMPSCALING, AI_MATKEY_SHININESS,
   AI_MATKEY_SHININESS_STRENGTH, AI_MATKEY_COLOR_DIFFUSE, AI_MATKEY_COLOR_AMBIENT,
   AI_MATKEY_COLOR_SPECULAR, AI_MATKEY_COLOR_EMISSIVE,
   AI_MATKEY_ORENNAYAR_ROUGHNESS, AI_MATKEY_MINNAERT_DARKNESS,
   AI_MATKEY_COOK_TORRANCE_REFRACTI, AI_MATKEY_COOK_TORRANCE_PARAM,
   AI_MATKEY_GLOBAL_BACKGROUND_IMAGE]

/-! ## Texture keys: file path -/

def AI_MATKEY_TEXTURE_DIFFUSE (N : String) : String := "$tex.file.diffuse[" ++ N ++ "]"
def AI_MATKEY_TEXTURE_DIFFUSE_ : String := "$tex.file.diffuse"
def AI_MATKEY_TEXTURE_AMBIENT (N : String) : String := "$tex.file.ambient[" ++ N ++ "]"
def AI_MATKEY_TEXTURE_AMBIENT_ : String := "$tex.file.ambient"
def AI_MATKEY_TEXTURE_SPECULAR (N : String) : String := "$tex.file.specular[" ++ N ++ "]"
def AI_MATKEY_TEXTURE_SPECULAR_ : String := "$tex.file.specular"
def AI_MATKEY_TEXTURE_EMISSIVE (N : String) : String := "$tex.file.emissive[" ++ N ++ "]"
def AI_MATKEY_TEXTURE_EMISSIVE_ : String := "$tex.file.emissive"
def AI_MATKEY_TEXTURE_NORMALS (N : String) : String := "$tex.file.normals[" ++ N ++ "]"
def AI_MATKEY_TEXTURE_NORMALS_ : String := "$tex.file.normals"
def AI_MATKEY_TEXTURE_HEIGHT (N : String) : String := "$tex.file.bump[" ++ N ++ "]"
def AI_MATKEY_TEXTURE_HEIGHT_ : String := "$tex.file.bump"
def AI_MATKEY_TEXTURE_SHININESS (N : String) : String := "$tex.file.shininess[" ++ N ++ "]"
def AI_MATKEY_TEXTURE_SHININESS_ : String := "$tex.file.shininess"
def AI_MATKEY_TEXTURE_OPACITY (N : String) : String := "$tex.file.opacity[" ++ N ++ "]"
def AI_MATKEY_TEXTURE_OPACITY_ : String := "$tex.file.opacity"

/-! ## Texture keys: combine operator -/

def AI_MATKEY_TEXOP_DIFFUSE (N : String) : String := "$tex.op.diffuse[" ++ N ++ "]"
def AI_MATKEY_TEXOP_AMBIENT (N : String) : String := "$tex.op.ambient[" ++ N ++ "]"
def AI_MATKEY_TEXOP_SPECULAR (N : String) : String := "$tex.op.specular[" ++ N ++ "]"
def AI_MATKEY_TEXOP_EMISSIVE (N : String) : String := "$tex.op.emissive[" ++ N ++ "]"
def AI_MATKEY_TEXOP_NORMALS (N : String) : String := "$tex.op.normals[" ++ N ++ "]"
def AI_MATKEY_TEXOP_HEIGHT (N : String) : String := "$tex.op.bump[" ++ N ++ "]"
def AI_MATKEY_TEXOP_SHININESS (N : String) : String := "$tex.op.shininess[" ++ N ++ "]"
def AI_MATKEY_TEXOP_OPACITY (N : String) : String := "$tex.op.opacity[" ++ N ++ "]"

def AI_MATKEY_TEXOP_DIFFUSE_ : String := "$tex.op.diffuse"
def AI_MATKEY_TEXOP_AMBIENT_ : String := "$tex.op.ambient"
def AI_MATKEY_TEXOP_SPECULAR_ : String := "$tex.op.specular"
def AI_MATKEY_TEXOP_EMISSIVE_ : String := "$tex.op.emissive"
def AI_MATKEY_TEXOP_NORMALS_ : String := "$tex.op.normals"
def AI_MATKEY_TEXOP_HEIGHT_ : String := "$tex.op.bump"
def AI_MATKEY_TEXOP_SHININESS_ : String := "$tex.op.shininess"
def AI_MATKEY_TEXOP_OPACITY_ : String := "$tex.op.opacity"

/-! ## Texture keys: UV source index -/

def AI_MATKEY_UVWSRC_DIFFUSE (N : String) : String := "$tex.uvw.diffuse[" ++ N ++ "]"
def AI_MATKEY_UVWSRC_AMBIENT (N : String) : String := "$tex.uvw.ambient[" ++ N ++ "]"
def AI_MATKEY_UVWSRC_SPECULAR (N : String) : String := "$tex.uvw.specular[" ++ N ++ "]"
def AI_MATKEY_UVWSRC_EMISSIVE (N : String) : String := "$tex.uvw.emissive[" ++ N ++ "]"
def AI_MATKEY_UVWSRC_NORMALS (N : String) : String := "$tex.uvw.normals[" ++ N ++ "]"
def AI_MATKEY_UVWSRC_HEIGHT (N : String) : String := "$tex.uvw.bump[" ++ N ++ "]"
def AI_MATKEY_UVWSRC_SHININESS (N : String) : String := "$tex.uvw.shininess[" ++ N ++ "]"
def AI_MATKEY_UVWSRC_OPACITY (N : String) : String := "$tex.uvw.opacity[" ++ N ++ "]"

def AI_MATKEY_UVWSRC_DIFFUSE_ : String := "$tex.uvw.diffuse"
def AI_MATKEY_UVWSRC_AMBIENT_ : String := "$tex.uvw.ambient"
def AI_MATKEY_UVWSRC_SPECULAR_ : String := "$tex.uvw.specular"
def AI_MATKEY_UVWSRC_EMISSIVE_ : String := "$tex.uvw.emissive"
def AI_MATKEY_UVWSRC_NORMALS_ : String := "$tex.uvw.normals"
def AI_MATKEY_UVWSRC_HEIGHT_ : String := "$tex.uvw.bump"
def AI_MATKEY_UVWSRC_SHININESS_ : String := "$tex.uvw.shininess"
def AI_MATKEY_UVWSRC_OPACITY_ : String := "$tex.uvw.opacity"

/-! ## Texture keys: blend factor -/

def AI_MATKEY_TEXBLEND_DIFFUSE (N : String) : String := "$tex.blend.diffuse[" ++ N ++ "]"
def AI_MATKEY_TEXBLEND_AMBIENT (N : String) : String := "$tex.blend.ambient[" ++ N ++ "]"
def AI_MATKEY_TEXBLEND_SPECULAR (N : String) : String := "$tex.blend.specular[" ++ N ++ "]"
def AI_MATKEY_TEXBLEND_EMISSIVE (N : String) : String := "$tex.blend.emissive[" ++ N ++ "]"
def AI_MATKEY_TEXBLEND_NORMALS (N : String) : String := "$tex.blend.normals[" ++ N ++ "]"
def AI_MATKEY_TEXBLEND_HEIGHT (N : String) : String := "$tex.blend.bump[" ++ N ++ "]"
def AI_MATKEY_TEXBLEND_SHININESS (N : String) : String := "$tex.blend.shininess[" ++ N ++ "]"
def AI_MATKEY_TEXBLEND_OPACITY (N : String) : String := "$tex.blend.opacity[" ++ N ++ "]"

def AI_MATKEY_TEXBLEND_DIFFUSE_ : String := "$tex.blend.diffuse"
def AI_MATKEY_TEXBLEND_AMBIENT_ : String := "$tex.blend.ambient"
def AI_MATKEY_TEXBLEND_SPECULAR_ : String := "$tex.blend.specular"
def AI_MATKEY_TEXBLEND_EMISSIVE_ : String := "$tex.blend.emissive"
def AI_MATKEY_TEXBLEND_NORMALS_ : String := "$tex.blend.normals"
def AI_MATKEY_TEXBLEND_HEIGHT_ : String := "$tex.blend.bump"
def AI_MATKEY_TEXBLEND_SHININESS_ : String := "$tex.blend.shininess"
def AI_MATKEY_TEXBLEND_OPACITY_ : String := "$tex.blend.opacity"

/-! ## Texture type constants -/

def AI_TEXTYPE_OPACITY : Nat := 0x0
def AI_TEXTYPE_SPECULAR : Nat := 0x1
def AI_TEXTYPE_AMBIENT : Nat := 0x2
def AI_TEXTYPE_EMISSIVE : Nat := 0x3
def AI_TEXTYPE_HEIGHT : Nat := 0x4
def AI_TEXTYPE_NORMALS : Nat := 0x5
def AI_TEXTYPE_SHININESS : Nat := 0x6
def AI_TEXTYPE_DIFFUSE : Nat := 0x7

/-! ## The texture key table, indexed by macro family and usage kind -/

/-- The four families of channelled texture key macros, named after the macro
infix: `AI_MATKEY_TEXTURE_*` (file path), `AI_MATKEY_TEXOP_*` (combine
operator), `AI_MATKEY_UVWSRC_*` (UV source index), `AI_MATKEY_TEXBLEND_*`
(blend factor). -/
inductive TexCategory
  | TEXTURE
  | TEXOP
  | UVWSRC
  | TEXBLEND
  deriving DecidableEq, Repr

/-- The eight texture usage kinds, named after the macro suffix. -/
inductive TexUsage
  | DIFFUSE
  | AMBIENT
  | SPECULAR
  | EMISSIVE
  | NORMALS
  | HEIGHT
  | SHININESS
  | OPACITY
  deriving DecidableEq, Repr

/-- The function-like macro `AI_MATKEY_<family>_<usage>(N)` of the header. -/
def texKey : TexCategory → TexUsage → String → String
  | .TEXTURE, .DIFFUSE => AI_MATKEY_TEXTURE_DIFFUSE
  | .TEXTURE, .AMBIENT => AI_MATKEY_TEXTURE_AMBIENT
  | .TEXTURE, .SPECULAR => AI_MATKEY_TEXTURE_SPECULAR
  | .TEXTURE, .EMISSIVE => AI_MATKEY_TEXTURE_EMISSIVE
  | .TEXTURE, .NORMALS => AI_MATKEY_TEXTURE_NORMALS
  | .TEXTURE, .HEIGHT => AI_MATKEY_TEXTURE_HEIGHT
  | .TEXTURE, .SHININESS => AI_MATKEY_TEXTURE_SHININESS
  | .TEXTURE, .OPACITY => AI_MATKEY_TEXTURE_OPACITY
  | .TEXOP, .DIFFUSE => AI_MATKEY_TEXOP_DIFFUSE
  | .TEXOP, .AMBIENT => AI_MATKEY_TEXOP_AMBIENT
  | .TEXOP, .SPECULAR => AI_MATKEY_TEXOP_SPECULAR
  | .TEXOP, .EMISSIVE => AI_MATKEY_TEXOP_EMISSIVE
  | .TEXOP, .NORMALS => AI_MATKEY_TEXOP_NORMALS
  | .TEXOP, .HEIGHT => AI_MATKEY_TEXOP_HEIGHT
  | .TEXOP, .SHININESS => AI_MATKEY_TEXOP_SHININESS
  | .TEXOP, .OPACITY => AI_MATKEY_TEXOP_OPACITY
  | .UVWSRC, .DIFFUSE => AI_MATKEY_UVWSRC_DIFFUSE
  | .UVWSRC, .AMBIENT => AI_MATKEY_UVWSRC_AMBIENT
  | .UVWSRC, .SPECULAR => AI_MATKEY_UVWSRC_SPECULAR
  | .UVWSRC, .EMISSIVE => AI_MATKEY_UVWSRC_EMISSIVE
  | .UVWSRC, .NORMALS => AI_MATKEY_UVWSRC_NORMALS
  | .UVWSRC, .HEIGHT => AI_MATKEY_UVWSRC_HEIGHT
  | .UVWSRC, .SHININESS => AI_MATKEY_UVWSRC_SHININESS
  | .UVWSRC, .OPACITY => AI_MATKEY_UVWSRC_OPACITY
  | .TEXBLEND, .DIFFUSE => AI_MATKEY_TEXBLEND_DIFFUSE
  | .TEXBLEND, .AMBIENT => AI_MATKEY_TEXBLEND_AMBIENT
  | .TEXBLEND, .SPECULAR => AI_MATKEY_TEXBLEND_SPECULAR
  | .TEXBLEND, .EMISSIVE => AI_MATKEY_TEXBLEND_EMISSIVE
  | .TEXBLEND, .NORMALS => AI_MATKEY_TEXBLEND_NORMALS
  | .TEXBLEND, .HEIGHT => AI_MATKEY_TEXBLEND_HEIGHT
  | .TEXBLEND, .SHININESS => AI_MATKEY_TEXBLEND_SHININESS
  | .TEXBLEND, .OPACITY => AI_MATKEY_TEXBLEND_OPACITY

/-- The object-like macro `AI_MATKEY_<family>_<usage>_` of the header. -/
def texKeyUnindexed : TexCategory → TexUsage → String
  | .TEXTURE, .DIFFUSE => AI_MATKEY_TEXTURE_DIFFUSE_
  | .TEXTURE, .AMBIENT => AI_MATKEY_TEXTURE_AMBIENT_
  | .TEXTURE, .SPECULAR => AI_MATKEY_TEXTURE_SPECULAR_
  | .TEXTURE, .EMISSIVE => AI_MATKEY_TEXTURE_EMISSIVE_
  | .TEXTURE, .NORMALS => AI_MATKEY_TEXTURE_NORMALS_
  | .TEXTURE, .HEIGHT => AI_MATKEY_TEXTURE_HEIGHT_
  | .TEXTURE, .SHININESS => AI_MATKEY_TEXTURE_SHININESS_
  | .TEXTURE, .OPACITY => AI_MATKEY_TEXTURE_OPACITY_
  | .TEXOP, .DIFFUSE => AI_MATKEY_TEXOP_DIFFUSE_
  | .TEXOP, .AMBIENT => AI_MATKEY_TEXOP_AMBIENT_
  | .TEXOP, .SPECULAR => AI_MATKEY_TEXOP_SPECULAR_
  | .TEXOP, .EMISSIVE => AI_MATKEY_TEXOP_EMISSIVE_
  | .TEXOP, .NORMALS => AI_MATKEY_TEXOP_NORMALS_
  | .TEXOP, .HEIGHT => AI_MATKEY_TEXOP_HEIGHT_
  | .TEXOP, .SHININESS => AI_MATKEY_TEXOP_SHININESS_
  | .TEXOP, .OPACITY => AI_MATKEY_TEXOP_OPACITY_
  | .UVWSRC, .DIFFUSE => AI_MATKEY_UVWSRC_DIFFUSE_
  | .UVWSRC, .AMBIENT => AI_MATKEY_UVWSRC_AMBIENT_
  | .UVWSRC, .SPECULAR => AI_MATKEY_UVWSRC_SPECULAR_
  | .UVWSRC, .EMISSIVE => AI_MATKEY_UVWSRC_EMISSIVE_
  | .UVWSRC, .NORMALS => AI_MATKEY_UVWSRC_NORMALS_
  | .UVWSRC, .HEIGHT => AI_MATKEY_UVWSRC_HEIGHT_
  | .UVWSRC, .SHININESS => AI_MATKEY_UVWSRC_SHININESS_
  | .UVWSRC, .OPACITY => AI_MATKEY_UVWSRC_OPACITY_
  | .TEXBLEND, .DIFFUSE => AI_MATKEY_TEXBLEND_DIFFUSE_
  | .TEXBLEND, .AMBIENT => AI_MATKEY_TEXBLEND_AMBIENT_
  | .TEXBLEND, .SPECULAR => AI_MATKEY_TEXBLEND_SPECULAR_
  | .TEXBLEND, .EMISSIVE => AI_MATKEY_TEXBLEND_EMISSIVE_
  | .TEXBLEND, .NORMALS => AI_MATKEY_TEXBLEND_NORMALS_
  | .TEXBLEND, .HEIGHT => AI_MATKEY_TEXBLEND_HEIGHT_
  | .TEXBLEND, .SHININESS => AI_MATKEY_TEXBLEND_SHININESS_
  | .TEXBLEND, .OPACITY => AI_MATKEY_TEXBLEND_OPACITY_

/-- The part of the macro names that stands for a family. -/
def TexCategory.familyName : TexCategory → String
  | .TEXTURE => "TEXTURE"
  | .TEXOP => "TEXOP"
  | .UVWSRC => "UVWSRC"
  | .TEXBLEND => "TEXBLEND"

/-- The part of the macro names that stands for a usage kind. -/
def TexUsage.kindName : TexUsage → String
  | .DIFFUSE => "DIFFUSE"
  | .AMBIENT => "AMBIENT"
  | .SPECULAR => "SPECULAR"
  | .EMISSIVE => "EMISSIVE"
  | .NORMALS => "NORMALS"
  | .HEIGHT => "HEIGHT"
  | .SHININESS => "SHININESS"
  | .OPACITY => "OPACITY"

/-- The `AI_TEXTYPE_*` constant of a usage kind. -/
def TexUsage.texType : TexUsage → Nat
  | .DIFFUSE => AI_TEXTYPE_DIFFUSE
  | .AMBIENT => AI_TEXTYPE_AMBIENT
  | .SPECULAR => AI_TEXTYPE_SPECULAR
  | .EMISSIVE => AI_TEXTYPE_EMISSIVE
  | .NORMALS => AI_TEXTYPE_NORMALS
  | .HEIGHT => AI_TEXTYPE_HEIGHT
  | .SHININESS => AI_TEXTYPE_SHININESS
  | .OPACITY => AI_TEXTYPE_OPACITY

/-- The eight `AI_TEXTYPE_*` constants, in source order. -/
def texTypeConstants : List Nat :=
  [AI_TEXTYPE_OPACITY, AI_TEXTYPE_SPECULAR, AI_TEXTYPE_AMBIENT, AI_TEXTYPE_EMISSIVE,
   AI_TEXTYPE_HEIGHT, AI_TEXTYPE_NORMALS, AI_TEXTYPE_SHININESS, AI_TEXTYPE_DIFFUSE]

/-- The `#define` directives of the texture key block of the header, in source
order: the macro's name, and whether it is function-like (takes `N`). -/
def textureKeyDefines : List (String × Bool) :=
  [("AI_MATKEY_TEXTURE_DIFFUSE", true), ("AI_MATKEY_TEXTURE_DIFFUSE_", false),
   ("AI_MATKEY_TEXTURE_AMBIENT", true), ("AI_MATKEY_TEXTURE_AMBIENT_", false),
   ("AI_MATKEY_TEXTURE_SPECULAR", true), ("AI_MATKEY_TEXTURE_SPECULAR_", false),
   ("AI_MATKEY_TEXTURE_EMISSIVE", true), ("AI_MATKEY_TEXTURE_EMISSIVE_", false),
   ("AI_MATKEY_TEXTURE_NORMALS", true), ("AI_MATKEY_TEXTURE_NORMALS_", false),
   ("AI_MATKEY_TEXTURE_HEIGHT", true), ("AI_MATKEY_TEXTURE_HEIGHT_", false),
   ("AI_MATKEY_TEXTURE_SHININESS", true), ("AI_MATKEY_TEXTURE_SHININESS_", false),
   ("AI_MATKEY_TEXTURE_OPACITY", true), ("AI_MATKEY_TEXTURE_OPACITY_", false),
   ("AI_MATKEY_TEXOP_DIFFUSE", true), ("AI_MATKEY_TEXOP_AMBIENT", true),
   ("AI_MATKEY_TEXOP_SPECULAR", true), ("AI_MATKEY_TEXOP_EMISSIVE", true),
   ("AI_MATKEY_TEXOP_NORMALS", true), ("AI_MATKEY_TEXOP_HEIGHT", true),
   ("AI_MATKEY_TEXOP_SHININESS", true), ("AI_MATKEY_TEXOP_OPACITY", true),
   ("AI_MATKEY_TEXOP_DIFFUSE_", false), ("AI_MATKEY_TEXOP_AMBIENT_", false),
   ("AI_MATKEY_TEXOP_SPECULAR_", false), ("AI_MATKEY_TEXOP_EMISSIVE_", false),
   ("AI_MATKEY_TEXOP_NORMALS_", false), ("AI_MATKEY_TEXOP_HEIGHT_", false),
   ("AI_MATKEY_TEXOP_SHININESS_", false), ("AI_MATKEY_TEXOP_OPACITY_", false),
   ("AI_MATKEY_UVWSRC_DIFFUSE", true), ("AI_MATKEY_UVWSRC_AMBIENT", true),
   ("AI_MATKEY_UVWSRC_SPECULAR", true), ("AI_MATKEY_UVWSRC_EMISSIVE", true),
   ("AI_MATKEY_UVWSRC_NORMALS", true), ("AI_MATKEY_UVWSRC_HEIGHT", true),
   ("AI_MATKEY_UVWSRC_SHININESS", true), ("AI_MATKEY_UVWSRC_OPACITY", true),
   ("AI_MATKEY_UVWSRC_DIFFUSE_", false), ("AI_MATKEY_UVWSRC_AMBIENT_", false),
   ("AI_MATKEY_UVWSRC_SPECULAR_", false), ("AI_MATKEY_UVWSRC_EMISSIVE_", false),
   ("AI_MATKEY_UVWSRC_NORMALS_", false), ("AI_MATKEY_UVWSRC_HEIGHT_", false),
   ("AI_MATKEY_UVWSRC_SHININESS_", false), ("AI_MATKEY_UVWSRC_OPACITY_", false),
   ("AI_MATKEY_TEXBLEND_DIFFUSE", true), ("AI_MATKEY_TEXBLEND_AMBIENT", true),
   ("AI_MATKEY_TEXBLEND_SPECULAR", true), ("AI_MATKEY_TEXBLEND_EMISSIVE", true),
   ("AI_MATKEY_TEXBLEND_NORMALS", true), ("AI_MATKEY_TEXBLEND_HEIGHT", true),
   ("AI_MATKEY_TEXBLEND_SHININESS", true), ("AI_MATKEY_TEXBLEND_OPACITY", true),
   ("AI_MATKEY_TEXBLEND_DIFFUSE_", false), ("AI_MATKEY_TEXBLEND_AMBIENT_", false),
   ("AI_MATKEY_TEXBLEND_SPECULAR_", false), ("AI_MATKEY_TEXBLEND_EMISSIVE_", false),
   ("AI_MATKEY_TEXBLEND_NORMALS_", false), ("AI_MATKEY_TEXBLEND_HEIGHT_", false),
   ("AI_MATKEY_TEXBLEND_SHININESS_", false), ("AI_MATKEY_TEXBLEND_OPACITY_", false)]

/-! ## The key format the specification describes -/

/-- The category component of a channelled key, as the specification names it. -/
def specCategoryName : TexCategory → String
  | .TEXTURE => "file"
  | .TEXOP => "op"
  | .UVWSRC => "uvw"
  | .TEXBLEND => "blend"

/-- The usage-kind tag of a channelled key, as the specification names it:
the usage kind's name, except that height uses the tag `bump`. -/
def specUsageTag : TexUsage → String
  | .DIFFUSE => "diffuse"
  | .AMBIENT => "ambient"
  | .SPECULAR => "specular"
  | .EMISSIVE => "emissive"
  | .NORMALS => "normals"
  | .HEIGHT => "bump"
  | .SHININESS => "shininess"
  | .OPACITY => "opacity"

/-! ## Key comparison -/

/-- Modelled from the spec: "Matching is case-insensitive; no other
normalization (no trimming, no locale rules)".  The string comparison the
lookup uses is not part of the header.  One character is folded to the code
of its ASCII lower-case letter when it is an ASCII upper-case letter `A`..`Z`,
and to its own code otherwise. -/
def foldChar (ch : Char) : Nat :=
  if 65 ≤ ch.toNat ∧ ch.toNat ≤ 90 then ch.toNat + 32 else ch.toNat

/-- Modelled from the spec: the case-folded form of a key, character by
character, with nothing trimmed. -/
def foldKey (s : String) : List Nat :=
  s.toList.map foldChar

/-- Modelled from the spec: two keys match when they are equal character by
character after ASCII case folding (exact, case-insensitive match on the
fully composed key). -/
def keyMatch (a b : String) : Bool :=
  foldKey a == foldKey b

/-! ## Accessors -/

/-- Modelled from the spec: the outcome of an accessor, success or one of the
errors `KeyNotFound`, `TypeMismatch`, `OutOfRange` of the error taxonomy.  The
type `aiReturn` is declared in `aiTypes.h`, which the header only includes. -/
inductive aiReturn
  | Success
  | KeyNotFound
  | TypeMismatch
  | OutOfRange
  deriving DecidableEq, Repr

/-- The shape of `aiGetMaterialFloatArray` and `aiGetMaterialIntegerArray` as
declared: material, key, destination buffer `pOut` and the in/out capacity
pointer `pMax` (`none` is the null pointer); the result is the returned
status, the destination afterwards and what `pMax` points to afterwards. -/
abbrev ArrayGetter : Type :=
  aiMaterial → String → List Nat → Option Nat → aiReturn × List Nat × Option Nat

/-- The inline function
`aiGetMaterialFloat(pMat,pKey,pOut) {return aiGetMaterialFloatArray(pMat,pKey,pOut,(unsigned int*)0x0);}`.
The array function it calls is declared in the header without a body and is
the first parameter here.  The result is the returned status and the
destination afterwards.  (The C branch of the header spells the same call,
with `NULL`, as a preprocessor macro.) -/
def aiGetMaterialFloat (floatArray : ArrayGetter) (pMat : aiMaterial) (pKey : String)
    (pOut : List Nat) : aiReturn × List Nat :=
  let r := floatArray pMat pKey pOut none
  (r.1, r.2.1)

/-- The inline function
`aiGetMaterialInteger(pMat,pKey,pOut) {return aiGetMaterialIntegerArray(pMat,pKey,pOut,(unsigned int*)0x0);}`,
with the array function it calls as first parameter. -/
def aiGetMaterialInteger (integerArray : ArrayGetter) (pMat : aiMaterial) (pKey : String)
    (pOut : List Nat) : aiReturn × List Nat :=
  let r := integerArray pMat pKey pOut none
  (r.1, r.2.1)

/-- Width in bytes of one `float` element of a property buffer (`sizeof(float)`). -/
def sizeofFloat : Nat := 4

/-- Width in bytes of one `int` element of a property buffer (`sizeof(int)`). -/
def sizeofInt : Nat := 4

/-- The `i`-th element of a buffer whose elements are `width` bytes wide. -/
def elemAt (width : Nat) (buf : List Nat) (i : Nat) : List Nat :=
  (buf.drop (i * width)).take width

/-- Modelled from the spec: `find(key)`, the body of `aiGetMaterialProperty`,
which the header only declares.  "Exact, case-insensitive match on fully
composed key.  Returns not found (no match) rather than failing when absent."
The live entries are the first `mNumProperties` of the store. -/
def aiGetMaterialProperty (pMat : aiMaterial) (pKey : String) : Option aiMaterialProperty :=
  (pMat.mProperties.take pMat.mNumProperties).find? (fun prop => keyMatch prop.mKey pKey)

/-- Modelled from the spec: the array accessor shared by `getFloatArray` and
`getIntegerArray`, `getFloatArray(store, key, outBuffer, inOutCapacity)`, whose
bodies the header does not contain.  The caller supplies the output buffer and
its capacity in elements; the result is the status, the buffer afterwards and
the in/out capacity afterwards.

* "`OutOfRange` (invalid channel index or zero-capacity output buffer, a caller
  programming error, always surfaced)": a capacity of zero fails with
  `OutOfRange`.
* "On key-not-found, fails with `KeyNotFound`."
* "Requires the resolved Property (if found) has the type tag; on type
  mismatch, fails with `TypeMismatch` rather than reinterpreting bytes."
* "On success, copies `min(inOutCapacity, storedElementCount)` elements and
  updates `inOutCapacity` to the number copied."  The stored element count is
  the byte length divided by the element width.

The specification does not order the errors where several apply; the capacity
is checked first.  A failure writes nothing. -/
def getArray (tag : aiPropertyTypeInfo) (width : Nat) (pMat : aiMaterial) (pKey : String)
    (pOut : List Nat) (capacity : Nat) : aiReturn × List Nat × Nat :=
  if capacity = 0 then (aiReturn.OutOfRange, pOut, capacity)
  else
    match aiGetMaterialProperty pMat pKey with
    | none => (aiReturn.KeyNotFound, pOut, capacity)
    | some prop =>
      if prop.mType = tag then
        let copied := min capacity (prop.mDataLength / width)
        (aiReturn.Success,
         prop.mData.take (copied * width) ++ pOut.drop (copied * width),
         copied)
      else (aiReturn.TypeMismatch, pOut, capacity)

/-- Modelled from the spec: `getFloatArray`, the body of
`aiGetMaterialFloatArray`; requires the type tag `Float`.  `pMax` is the
capacity the caller's pointer holds ("specifies the size of the given buffer,
in float's; receives the number of values (not bytes!) read"). -/
def aiGetMaterialFloatArray (pMat : aiMaterial) (pKey : String) (pOut : List Nat)
    (pMax : Nat) : aiReturn × List Nat × Nat :=
  getArray aiPropertyTypeInfo.aiPTI_Float sizeofFloat pMat pKey pOut pMax

/-- Modelled from the spec: `getIntegerArray`, the body of
`aiGetMaterialIntegerArray`; "symmetric, requires the type tag `Integer`". -/
def aiGetMaterialIntegerArray (pMat : aiMaterial) (pKey : String) (pOut : List Nat)
    (pMax : Nat) : aiReturn × List Nat × Nat :=
  getArray aiPropertyTypeInfo.aiPTI_Integer sizeofInt pMat pKey pOut pMax

/-- The value of a list of decimal digit codes, most significant first. -/
def digitsValue (ds : List Nat) : Nat :=
  ds.foldl (fun acc d => 10 * acc + (d - 48)) 0

/-! ## Sample data -/

/-- A property holding four 4-byte elements under the opacity key. -/
def sampleProperty : aiMaterialProperty :=
  { mKey := AI_MATKEY_OPACITY, mDataLength := 16, mType := aiPropertyTypeInfo.aiPTI_Float,
    mData := [1, 2, 3, 4, 5, 6, 7, 8, 9, 10, 11, 12, 13, 14, 15, 16] }

/-- A material with the sample property as its only entry. -/
def sampleMaterial : aiMaterial :=
  { mProperties := [sampleProperty], mNumProperties := 1, mNumAllocated := 5 }

/-- A destination buffer of four 4-byte elements. -/
def sampleOut : List Nat :=
  [90, 91, 92, 93, 94, 95, 96, 97, 98, 99, 100, 101, 102, 103, 104, 105]

/-! # Theorems -/

/-! ## Enumerations and constants -/

/-- C8: the property type tag `aiPropertyTypeInfo` has exactly the four values
Float, String, Integer, Buffer, with codes 1, 3, 4, 5 in that order; the map
from tag to code is injective, and no tag has code 0 or code 2. -/
theorem aiPropertyTypeInfo_codes :
    (∀ t : aiPropertyTypeInfo, t ∈ aiPropertyTypeInfo.all) ∧
    aiPropertyTypeInfo.all.Nodup ∧
    aiPropertyTypeInfo.all.length = 4 ∧
    aiPropertyTypeInfo.all.map aiPropertyTypeInfo.code = [1, 3, 4, 5] ∧
    Function.Injective aiPropertyTypeInfo.code ∧
    (∀ t : aiPropertyTypeInfo, t.code ≠ 0 ∧ t.code ≠ 2) := by
  refine ⟨?_, by decide, rfl, rfl, ?_, ?_⟩
  · intro t; cases t <;> decide
  · intro a b h; cases a <;> cases b <;> first | rfl | exact absurd h (by decide)
  · intro t; cases t <;> decide

/-- C7: the combine operator type `aiTextureOp` has exactly the six operators
multiply, add, subtract, divide, smooth-add, signed-add; their codes are
pairwise distinct and are 0..5 in that order; Multiply has code 0 and is the
only operator with code 0. -/
theorem aiTextureOp_codes :
    (∀ op : aiTextureOp, op ∈ aiTextureOp.all) ∧
    aiTextureOp.all.Nodup ∧
    aiTextureOp.all.length = 6 ∧
    aiTextureOp.all.map aiTextureOp.code = [0, 1, 2, 3, 4, 5] ∧
    Function.Injective aiTextureOp.code ∧
    aiTextureOp.aiTextureOp_Multiply.code = 0 ∧
    (∀ op : aiTextureOp, op.code = 0 ↔ op = aiTextureOp.aiTextureOp_Multiply) := by
  refine ⟨?_, by decide, rfl, rfl, ?_, rfl, ?_⟩
  · intro op; cases op <;> decide
  · intro a b h; cases a <;> cases b <;> first | rfl | exact absurd h (by decide)
  · intro op; cases op <;> decide

/-- C6: the eight `AI_TEXTYPE_*` constants are pairwise distinct and are
exactly the integers 0..7, one per usage kind; and for every usage kind and
each of the four macro families the header defines both the function-like
macro `AI_MATKEY_<family>_<usage>(N)` and the object-like macro
`AI_MATKEY_<family>_<usage>_`. -/
theorem texType_constants_and_subkeys :
    texTypeConstants.Nodup ∧
    texTypeConstants.length = 8 ∧
    (∀ n : Nat, n ∈ texTypeConstants ↔ n < 8) ∧
    Function.Injective TexUsage.texType ∧
    (∀ u : TexUsage, u.texType ∈ texTypeConstants) ∧
    (∀ (c : TexCategory) (u : TexUsage),
      ("AI_MATKEY_" ++ c.familyName ++ "_" ++ u.kindName, true) ∈ textureKeyDefines ∧
      ("AI_MATKEY_" ++ c.familyName ++ "_" ++ u.kindName ++ "_", false) ∈ textureKeyDefines) := by
  refine ⟨by decide, rfl, ?_, ?_, ?_, ?_⟩
  · intro n
    simp only [texTypeConstants, AI_TEXTYPE_OPACITY, AI_TEXTYPE_SPECULAR, AI_TEXTYPE_AMBIENT,
      AI_TEXTYPE_EMISSIVE, AI_TEXTYPE_HEIGHT, AI_TEXTYPE_NORMALS, AI_TEXTYPE_SHININESS,
      AI_TEXTYPE_DIFFUSE, List.mem_cons, List.mem_singleton, List.not_mem_nil, or_false]
    omega
  · intro a b h; cases a <;> cases b <;> first | rfl | exact absurd h (by decide)
  · intro u; cases u <;> decide
  · intro c u; cases c <;> cases u <;> decide

/-! ## Key format -/

/-- C1: for every category, usage kind and channel index `N`, the channelled
macro applied to the decimal numeral of `N` is the string
`"$tex." ++ category ++ "." ++ usageTag ++ "[" ++ decimal N ++ "]"`, where
height uses the tag `bump`; the unindexed constant is that string without the
bracketed index.  (The macro copies whatever spelling it is given between the
brackets; this is the first conjunct.) -/
theorem texKey_format (c : TexCategory) (u : TexUsage) (N : Nat) :
    (∀ spelling : String, texKey c u spelling =
      "$tex." ++ specCategoryName c ++ "." ++ specUsageTag u ++ "[" ++ spelling ++ "]") ∧
    texKey c u (toString N) =
      "$tex." ++ specCategoryName c ++ "." ++ specUsageTag u ++ "[" ++ toString N ++ "]" ∧
    texKeyUnindexed c u = "$tex." ++ specCategoryName c ++ "." ++ specUsageTag u := by
  cases c <;> cases u <;> exact ⟨fun _ => rfl, rfl, rfl⟩

/-! ## Case folding and key composition -/

theorem foldKey_append (a b : String) : foldKey (a ++ b) = foldKey a ++ foldKey b := by
  simp [foldKey, String.toList, String.data_append]

theorem keyMatch_eq_false_iff (a b : String) : keyMatch a b = false ↔ foldKey a ≠ foldKey b := by
  simp [keyMatch]

/-- Every channelled macro is its unindexed constant followed by the
bracketed spelling of the argument. -/
theorem texKey_eq_unindexed_append (c : TexCategory) (u : TexUsage) (s : String) :
    texKey c u s = texKeyUnindexed c u ++ "[" ++ s ++ "]" := by
  cases c <;> cases u <;> rfl

theorem foldKey_texKey (c : TexCategory) (u : TexUsage) (s : String) :
    foldKey (texKey c u s) = foldKey (texKeyUnindexed c u) ++ 91 :: (foldKey s ++ [93]) := by
  rw [texKey_eq_unindexed_append, foldKey_append, foldKey_append, foldKey_append]
  have h1 : foldKey "[" = [91] := by decide
  have h2 : foldKey "]" = [93] := by decide
  rw [h1, h2]
  simp

theorem bracket_not_mem_unindexed (c : TexCategory) (u : TexUsage) :
    91 ∉ foldKey (texKeyUnindexed c u) := by
  cases c <;> cases u <;> decide

theorem foldKey_unindexed_injective (c₁ c₂ : TexCategory) (u₁ u₂ : TexUsage)
    (h : foldKey (texKeyUnindexed c₁ u₁) = foldKey (texKeyUnindexed c₂ u₂)) :
    c₁ = c₂ ∧ u₁ = u₂ := by
  cases c₁ <;> cases u₁ <;> cases c₂ <;> cases u₂ <;>
    first | exact ⟨rfl, rfl⟩ | exact absurd h (by decide)

/-- Two lists split at the first occurrence of a separator agree part by part. -/
theorem append_cons_inj_of_not_mem {x : Nat} :
    ∀ {B₁ B₂ R₁ R₂ : List Nat}, x ∉ B₁ → x ∉ B₂ →
      B₁ ++ x :: R₁ = B₂ ++ x :: R₂ → B₁ = B₂ ∧ R₁ = R₂
  | [], [], _, _, _, _, h => by simpa using h
  | [], b :: B₂, _, _, _, h₂, h => by
      simp only [List.nil_append, List.cons_append, List.cons.injEq] at h
      exact absurd (h.1 ▸ List.mem_cons_self _ _) h₂
  | a :: B₁, [], _, _, h₁, _, h => by
      simp only [List.nil_append, List.cons_append, List.cons.injEq] at h
      exact absurd (h.1 ▸ List.mem_cons_self _ _) h₁
  | a :: B₁, b :: B₂, R₁, R₂, h₁, h₂, h => by
      simp only [List.cons_append, List.cons.injEq] at h
      have ih := @append_cons_inj_of_not_mem x B₁ B₂ R₁ R₂
        (fun hm => h₁ (List.mem_cons_of_mem _ hm)) (fun hm => h₂ (List.mem_cons_of_mem _ hm)) h.2
      exact ⟨by rw [h.1, ih.1], ih.2⟩

/-! ## Decimal numerals -/

theorem digitChar_toNat {m : Nat} (hm : m < 10) : (Nat.digitChar m).toNat = 48 + m := by
  interval_cases m <;> rfl

theorem digitsValue_append_singleton (ds : List Nat) (d : Nat) :
    digitsValue (ds ++ [d]) = 10 * digitsValue ds + (d - 48) := by
  simp [digitsValue, List.foldl_append]

/-- The digits `toDigitsCore` puts in front of its accumulator: decimal digit
characters whose value is the number converted. -/
theorem toDigitsCore_spec : ∀ (fuel n : Nat) (acc : List Char), n < fuel →
    ∃ ds : List Char, Nat.toDigitsCore 10 fuel n acc = ds ++ acc ∧
      (∀ ch ∈ ds, 48 ≤ ch.toNat ∧ ch.toNat ≤ 57) ∧
      digitsValue (ds.map Char.toNat) = n
  | 0, n, _, h => absurd h (Nat.not_lt_zero n)
  | fuel + 1, n, acc, h => by
      have hmod : n % 10 < 10 := Nat.mod_lt n (by decide)
      have hd := digitChar_toNat hmod
      rw [Nat.toDigitsCore]
      by_cases hq : n / 10 = 0
      · refine ⟨[Nat.digitChar (n % 10)], by simp [hq], ?_, ?_⟩
        · intro ch hch
          rw [List.mem_singleton] at hch
          subst hch
          omega
        · simp only [List.map_cons, List.map_nil, digitsValue, List.foldl_cons, List.foldl_nil]
          omega
      · obtain ⟨ds, hds, hdig, hval⟩ :=
          toDigitsCore_spec fuel (n / 10) (Nat.digitChar (n % 10) :: acc) (by omega)
        refine ⟨ds ++ [Nat.digitChar (n % 10)], by simp [hq, hds], ?_, ?_⟩
        · intro ch hch
          rw [List.mem_append, List.mem_singleton] at hch
          rcases hch with hch | hch
          · exact hdig ch hch
          · subst hch
            omega
        · rw [List.map_append, List.map_cons, List.map_nil, digitsValue_append_singleton, hval]
          omega

/-- Case folding leaves a decimal numeral as it is, and the numeral's value
is the number: folded numerals of different numbers differ. -/
theorem digitsValue_foldKey_toString (N : Nat) : digitsValue (foldKey (toString N)) = N := by
  obtain ⟨ds, hds, hdig, hval⟩ := toDigitsCore_spec (N + 1) N [] (Nat.lt_succ_self N)
  have hlist : (toString N).toList = ds := by
    show Nat.toDigits 10 N = ds
    rw [Nat.toDigits, hds, List.append_nil]
  have hfold : ds.map foldChar = ds.map Char.toNat := by
    apply List.map_congr_left
    intro ch hch
    have := hdig ch hch
    unfold foldChar
    rw [if_neg (by omega)]
  rw [foldKey, hlist, hfold, hval]

theorem foldKey_toString_injective {N M : Nat}
    (h : foldKey (toString N) = foldKey (toString M)) : N = M := by
  rw [← digitsValue_foldKey_toString N, ← digitsValue_foldKey_toString M, h]

/-! ## Keys against each other -/

/-- Folded channelled keys agree only for the same family, usage kind and
folded argument spelling. -/
theorem foldKey_texKey_inj {c₁ c₂ : TexCategory} {u₁ u₂ : TexUsage} {s₁ s₂ : String}
    (h : foldKey (texKey c₁ u₁ s₁) = foldKey (texKey c₂ u₂ s₂)) :
    c₁ = c₂ ∧ u₁ = u₂ ∧ foldKey s₁ = foldKey s₂ := by
  rw [foldKey_texKey, foldKey_texKey] at h
  obtain ⟨hbase, hrest⟩ := append_cons_inj_of_not_mem
    (bracket_not_mem_unindexed c₁ u₁) (bracket_not_mem_unindexed c₂ u₂) h
  obtain ⟨hc, hu⟩ := foldKey_unindexed_injective c₁ c₂ u₁ u₂ hbase
  exact ⟨hc, hu, List.append_cancel_right hrest⟩

theorem take_two_foldKey_texKey (c : TexCategory) (u : TexUsage) (s : String) :
    (foldKey (texKey c u s)).take 2 = [36, 116] := by
  rw [foldKey_texKey, List.take_append_of_le_length (by cases c <;> cases u <;> decide)]
  cases c <;> cases u <;> decide

/-- C2: channel isolation.  For two triples (category, usage kind, channel
index) that differ in at least one component, the two channelled keys, each
composed with the decimal numeral of its index, do not match under the
case-insensitive comparison and are different strings; in particular the keys
for channel 0 and channel 1 of the same category and usage kind never match. -/
theorem channel_isolation (c₁ c₂ : TexCategory) (u₁ u₂ : TexUsage) (N₁ N₂ : Nat)
    (h : (c₁, u₁, N₁) ≠ (c₂, u₂, N₂)) :
    keyMatch (texKey c₁ u₁ (toString N₁)) (texKey c₂ u₂ (toString N₂)) = false ∧
    texKey c₁ u₁ (toString N₁) ≠ texKey c₂ u₂ (toString N₂) ∧
    (∀ (c : TexCategory) (u : TexUsage),
      keyMatch (texKey c u (toString 0)) (texKey c u (toString 1)) = false) := by
  have key : ∀ (a b : TexCategory) (x y : TexUsage) (n m : Nat), (a, x, n) ≠ (b, y, m) →
      foldKey (texKey a x (toString n)) ≠ foldKey (texKey b y (toString m)) := by
    intro a b x y n m hne heq
    obtain ⟨hc, hu, hs⟩ := foldKey_texKey_inj heq
    exact hne (by rw [hc, hu, foldKey_toString_injective hs])
  refine ⟨(keyMatch_eq_false_iff _ _).mpr (key _ _ _ _ _ _ h), ?_, ?_⟩
  · intro heq
    exact key _ _ _ _ _ _ h (by rw [heq])
  · intro c u
    exact (keyMatch_eq_false_iff _ _).mpr (key c c u u 0 1 (by simp))

/-- C2 at the diffuse file keys of channel 0 and channel 1. -/
theorem channel_isolation_witness :
    (TexCategory.TEXTURE, TexUsage.DIFFUSE, 0) ≠ (TexCategory.TEXTURE, TexUsage.DIFFUSE, 1) ∧
    keyMatch (AI_MATKEY_TEXTURE_DIFFUSE (toString 0)) (AI_MATKEY_TEXTURE_DIFFUSE (toString 1))
      = false :=
  ⟨by decide,
   (channel_isolation TexCategory.TEXTURE TexCategory.TEXTURE TexUsage.DIFFUSE TexUsage.DIFFUSE
      0 1 (by decide)).1⟩

/-- C3, as stated, fails: the unindexed diffuse file key and the diffuse file
key of channel 0 do not match under the case-insensitive exact comparison. -/
theorem unindexed_alias_counterexample :
    keyMatch AI_MATKEY_TEXTURE_DIFFUSE_ (AI_MATKEY_TEXTURE_DIFFUSE (toString 0)) = false := by
  decide

/-- C3, amended: for every category and usage kind the channelled key of
index 0 is the unindexed constant followed by `[0]`; the two are different
strings that do not match under the case-insensitive exact comparison, and the
unindexed constant matches the channelled key of no argument at all. -/
theorem unindexed_is_base_not_alias (c : TexCategory) (u : TexUsage) :
    texKey c u (toString 0) = texKeyUnindexed c u ++ "[0]" ∧
    texKeyUnindexed c u ≠ texKey c u (toString 0) ∧
    keyMatch (texKeyUnindexed c u) (texKey c u (toString 0)) = false ∧
    (∀ spelling : String, keyMatch (texKeyUnindexed c u) (texKey c u spelling) = false) := by
  have hne : ∀ s : String, foldKey (texKeyUnindexed c u) ≠ foldKey (texKey c u s) := by
    intro s heq
    have hlen := congrArg List.length heq
    rw [foldKey_texKey] at hlen
    simp at hlen
  refine ⟨by cases c <;> cases u <;> rfl, ?_, ?_, ?_⟩
  · intro heq
    exact hne (toString 0) (by rw [← heq])
  · exact (keyMatch_eq_false_iff _ _).mpr (hne _)
  · intro s
    exact (keyMatch_eq_false_iff _ _).mpr (hne s)

/-- C9: the sixteen bare key constants are pairwise distinct under the
case-insensitive comparison, and none of them matches a texture key of any
category and usage kind, whether unindexed or channelled with any argument. -/
theorem bareKeys_distinct :
    bareKeys.length = 16 ∧
    bareKeys.Pairwise (fun a b => keyMatch a b = false) ∧
    (∀ k ∈ bareKeys, ∀ (c : TexCategory) (u : TexUsage),
      keyMatch k (texKeyUnindexed c u) = false ∧
      (∀ N : Nat, keyMatch k (texKey c u (toString N)) = false) ∧
      (∀ spelling : String, keyMatch k (texKey c u spelling) = false)) := by
  have hbare : ∀ k ∈ bareKeys, (foldKey k).take 2 ≠ [36, 116] := by decide
  have htex : ∀ k ∈ bareKeys, ∀ (c : TexCategory) (u : TexUsage) (s : String),
      keyMatch k (texKey c u s) = false := by
    intro k hk c u s
    refine (keyMatch_eq_false_iff _ _).mpr (fun heq => hbare k hk ?_)
    rw [heq, take_two_foldKey_texKey]
  refine ⟨rfl, by decide, ?_⟩
  intro k hk c u
  refine ⟨?_, fun N => htex k hk c u _, htex k hk c u⟩
  refine (keyMatch_eq_false_iff _ _).mpr (fun heq => hbare k hk ?_)
  rw [heq]
  cases c <;> cases u <;> decide

/-! ## The single-value accessors -/

/-- C10: for every array function, material, key and destination,
`aiGetMaterialFloat` returns the status the float array call returns for the
same material, key and destination and a null capacity, and leaves the
destination as that call leaves it; `aiGetMaterialInteger` likewise with the
integer array call.  The wrappers succeed exactly when the array call does. -/
theorem getSingle_status_of_null_capacity_call (floatArray integerArray : ArrayGetter)
    (pMat : aiMaterial) (pKey : String) (pOut : List Nat) :
    (aiGetMaterialFloat floatArray pMat pKey pOut).1 = (floatArray pMat pKey pOut none).1 ∧
    (aiGetMaterialFloat floatArray pMat pKey pOut).2 = (floatArray pMat pKey pOut none).2.1 ∧
    (aiGetMaterialInteger integerArray pMat pKey pOut).1 =
      (integerArray pMat pKey pOut none).1 ∧
    (aiGetMaterialInteger integerArray pMat pKey pOut).2 =
      (integerArray pMat pKey pOut none).2.1 ∧
    ((aiGetMaterialFloat floatArray pMat pKey pOut).1 = aiReturn.Success ↔
      (floatArray pMat pKey pOut none).1 = aiReturn.Success) ∧
    ((aiGetMaterialInteger integerArray pMat pKey pOut).1 = aiReturn.Success ↔
      (integerArray pMat pKey pOut none).1 = aiReturn.Success) :=
  ⟨rfl, rfl, rfl, rfl, Iff.rfl, Iff.rfl⟩

/-! ## Capacity negotiation -/

theorem getArray_found (tag : aiPropertyTypeInfo) (width : Nat) (pMat : aiMaterial)
    (pKey : String) (pOut : List Nat) (capacity : Nat) (prop : aiMaterialProperty)
    (hfind : aiGetMaterialProperty pMat pKey = some prop) (htype : prop.mType = tag)
    (hpos : 1 ≤ capacity) :
    getArray tag width pMat pKey pOut capacity =
      (aiReturn.Success,
       prop.mData.take (min capacity (prop.mDataLength / width) * width) ++
         pOut.drop (min capacity (prop.mDataLength / width) * width),
       min capacity (prop.mDataLength / width)) := by
  have hne : capacity ≠ 0 := by omega
  simp [getArray, hfind, htype, hne]

theorem getArray_zero (tag : aiPropertyTypeInfo) (width : Nat) (pMat : aiMaterial)
    (pKey : String) (pOut : List Nat) :
    getArray tag width pMat pKey pOut 0 = (aiReturn.OutOfRange, pOut, 0) := by
  simp [getArray]

/-- Elements below the number copied come from the source buffer. -/
theorem elemAt_copied (width k i : Nat) (data out : List Nat)
    (hk : k * width ≤ data.length) (hi : i < k) :
    elemAt width (data.take (k * width) ++ out.drop (k * width)) i = elemAt width data i := by
  have hstep : i * width + width ≤ k * width := by
    calc i * width + width = (i + 1) * width := by ring
      _ ≤ k * width := Nat.mul_le_mul_right width hi
  have hlen : (data.take (k * width)).length = k * width := by
    rw [List.length_take]; omega
  unfold elemAt
  rw [List.drop_append_of_le_length (by omega),
    List.take_append_of_le_length (by rw [List.length_drop]; omega),
    List.drop_take, List.take_take]
  congr 1
  omega

/-- Elements from the number copied on are those of the destination before. -/
theorem elemAt_untouched (width k i : Nat) (data out : List Nat)
    (hk : k * width ≤ data.length) (hi : k ≤ i) :
    elemAt width (data.take (k * width) ++ out.drop (k * width)) i = elemAt width out i := by
  have hstep : k * width ≤ i * width := Nat.mul_le_mul_right width hi
  have hlen : (data.take (k * width)).length = k * width := by
    rw [List.length_take]; omega
  unfold elemAt
  rw [List.drop_append_eq_append_drop, hlen, List.drop_of_length_le (by omega),
    List.nil_append, List.drop_drop]
  congr 2
  omega

/-- The capacity protocol of the shared array accessor, for any tag, any
element width and any capacity of at least one element. -/
theorem getArray_capacity (tag : aiPropertyTypeInfo) (width : Nat) (pMat : aiMaterial)
    (pKey : String) (pOut : List Nat) (capacity : Nat) (prop : aiMaterialProperty)
    (hfind : aiGetMaterialProperty pMat pKey = some prop) (htype : prop.mType = tag)
    (hlen : prop.mDataLength = prop.mData.length) (hpos : 1 ≤ capacity) :
    (getArray tag width pMat pKey pOut capacity).1 = aiReturn.Success ∧
    (getArray tag width pMat pKey pOut capacity).2.2 =
      min capacity (prop.mDataLength / width) ∧
    (∀ i, i < min capacity (prop.mDataLength / width) →
      elemAt width (getArray tag width pMat pKey pOut capacity).2.1 i =
        elemAt width prop.mData i) ∧
    (∀ i, min capacity (prop.mDataLength / width) ≤ i →
      elemAt width (getArray tag width pMat pKey pOut capacity).2.1 i =
        elemAt width pOut i) ∧
    (capacity * width ≤ pOut.length →
      (getArray tag width pMat pKey pOut capacity).2.1.length = pOut.length) := by
  have hk : min capacity (prop.mDataLength / width) * width ≤ prop.mData.length := by
    calc min capacity (prop.mDataLength / width) * width
        ≤ prop.mDataLength / width * width := Nat.mul_le_mul_right width (Nat.min_le_right _ _)
      _ ≤ prop.mDataLength := Nat.div_mul_le_self _ _
      _ = prop.mData.length := hlen
  rw [getArray_found tag width pMat pKey pOut capacity prop hfind htype hpos]
  refine ⟨rfl, rfl, ?_, ?_, ?_⟩
  · intro i hi
    exact elemAt_copied width _ i prop.mData pOut hk hi
  · intro i hi
    exact elemAt_untouched width _ i prop.mData pOut hk hi
  · intro hroom
    have hc : min capacity (prop.mDataLength / width) * width ≤ pOut.length :=
      le_trans (Nat.mul_le_mul_right width (Nat.min_le_left _ _)) hroom
    simp only [List.length_append, List.length_take, List.length_drop]
    omega

/-- C5, as stated, fails at the caller capacity 0: the sample material holds a
Float property of four elements under the opacity key, and the float array
accessor called with capacity 0 does not succeed; it fails with `OutOfRange`
and writes nothing. -/
theorem zero_capacity_counterexample :
    aiGetMaterialProperty sampleMaterial AI_MATKEY_OPACITY = some sampleProperty ∧
    sampleProperty.mType = aiPropertyTypeInfo.aiPTI_Float ∧
    sampleProperty.mDataLength = 16 ∧
    sampleProperty.mData.length = 16 ∧
    aiGetMaterialFloatArray sampleMaterial AI_MATKEY_OPACITY sampleOut 0 =
      (aiReturn.OutOfRange, sampleOut, 0) ∧
    (aiGetMaterialFloatArray sampleMaterial AI_MATKEY_OPACITY sampleOut 0).1 ≠
      aiReturn.Success := by
  decide

/-- C5, amended: capacity negotiation for a capacity of at least one element.
When the lookup of the key finds a property whose byte length is the size of
its data, then for every caller capacity `c ≥ 1` (in elements) and a Float
property with `n` stored elements, `n` the byte length divided by 4,
`aiGetMaterialFloatArray` succeeds, sets the in/out capacity to `min c n`,
writes the first `min c n` stored 4-byte elements to the destination and
leaves the destination elements at positions `≥ min c n` unchanged (and the
destination's size, when it has room for `c` elements);
`aiGetMaterialIntegerArray` does the same for an Integer property.  With the
capacity 0 both fail with `OutOfRange` and leave destination and capacity as
they were. -/
theorem capacity_negotiation (pMat : aiMaterial) (pKey : String) (pOut : List Nat) (c : Nat)
    (prop : aiMaterialProperty)
    (hfind : aiGetMaterialProperty pMat pKey = some prop)
    (hlen : prop.mDataLength = prop.mData.length)
    (hc : 1 ≤ c) :
    (prop.mType = aiPropertyTypeInfo.aiPTI_Float →
      (aiGetMaterialFloatArray pMat pKey pOut c).1 = aiReturn.Success ∧
      (aiGetMaterialFloatArray pMat pKey pOut c).2.2 = min c (prop.mDataLength / 4) ∧
      (∀ i, i < min c (prop.mDataLength / 4) →
        elemAt 4 (aiGetMaterialFloatArray pMat pKey pOut c).2.1 i = elemAt 4 prop.mData i) ∧
      (∀ i, min c (prop.mDataLength / 4) ≤ i →
        elemAt 4 (aiGetMaterialFloatArray pMat pKey pOut c).2.1 i = elemAt 4 pOut i) ∧
      (c * 4 ≤ pOut.length →
        (aiGetMaterialFloatArray pMat pKey pOut c).2.1.length = pOut.length)) ∧
    (prop.mType = aiPropertyTypeInfo.aiPTI_Integer →
      (aiGetMaterialIntegerArray pMat pKey pOut c).1 = aiReturn.Success ∧
      (aiGetMaterialIntegerArray pMat pKey pOut c).2.2 = min c (prop.mDataLength / 4) ∧
      (∀ i, i < min c (prop.mDataLength / 4) →
        elemAt 4 (aiGetMaterialIntegerArray pMat pKey pOut c).2.1 i = elemAt 4 prop.mData i) ∧
      (∀ i, min c (prop.mDataLength / 4) ≤ i →
        elemAt 4 (aiGetMaterialIntegerArray pMat pKey pOut c).2.1 i = elemAt 4 pOut i) ∧
      (c * 4 ≤ pOut.length →
        (aiGetMaterialIntegerArray pMat pKey pOut c).2.1.length = pOut.length)) ∧
    aiGetMaterialFloatArray pMat pKey pOut 0 = (aiReturn.OutOfRange, pOut, 0) ∧
    aiGetMaterialIntegerArray pMat pKey pOut 0 = (aiReturn.OutOfRange, pOut, 0) :=
  ⟨fun htype => getArray_capacity _ 4 pMat pKey pOut c prop hfind htype hlen hc,
   fun htype => getArray_capacity _ 4 pMat pKey pOut c prop hfind htype hlen hc,
   getArray_zero _ _ pMat pKey pOut, getArray_zero _ _ pMat pKey pOut⟩

/-- C5 on the sample material: four stored elements read with capacity 2 into
a destination of four elements; the first two stored elements are written,
the last two elements of the destination are untouched and 2 is reported. -/
theorem capacity_negotiation_witness :
    (aiGetMaterialProperty sampleMaterial "$MAT.Opacity" = some sampleProperty ∧
      sampleProperty.mDataLength = sampleProperty.mData.length ∧
      1 ≤ 2 ∧
      sampleProperty.mType = aiPropertyTypeInfo.aiPTI_Float) ∧
    aiGetMaterialFloatArray sampleMaterial "$MAT.Opacity" sampleOut 2 =
      (aiReturn.Success,
       [1, 2, 3, 4, 5, 6, 7, 8, 98, 99, 100, 101, 102, 103, 104, 105], 2) ∧
    (aiGetMaterialFloatArray sampleMaterial "$MAT.Opacity" sampleOut 2).1 =
      aiReturn.Success ∧
    (aiGetMaterialFloatArray sampleMaterial "$MAT.Opacity" sampleOut 2).2.2 =
      min 2 (sampleProperty.mDataLength / 4) ∧
    elemAt 4 (aiGetMaterialFloatArray sampleMaterial "$MAT.Opacity" sampleOut 2).2.1 1 =
      elemAt 4 sampleProperty.mData 1 ∧
    elemAt 4 (aiGetMaterialFloatArray sampleMaterial "$MAT.Opacity" sampleOut 2).2.1 3 =
      elemAt 4 sampleOut 3 :=
  have h := (capacity_negotiation sampleMaterial "$MAT.Opacity" sampleOut 2 sampleProperty
    (by decide) (by decide) (by decide)).1 rfl
  ⟨⟨by decide, by decide, by decide, rfl⟩, by decide, h.1, h.2.1,
    h.2.2.1 1 (by decide), h.2.2.2.1 3 (by decide)⟩

/-! ## The single-value accessors as array calls -/

/-- C11 on the code: the enumerators `aiShadingMode_CookTorrance` and
`aiShadingMode_NoShading` are different shading modes with the same code
`0x8`, so the codes of the nine shading modes are not pairwise distinct and
the code map is not injective; this pair is the only collision, the seven
other modes having the codes 1..7 to themselves. -/
theorem aiShadingMode_code_collision :
    aiShadingMode.aiShadingMode_CookTorrance.code = 8 ∧
    aiShadingMode.aiShadingMode_NoShading.code = 8 ∧
    aiShadingMode.aiShadingMode_CookTorrance ≠ aiShadingMode.aiShadingMode_NoShading ∧
    (∀ m : aiShadingMode, m ∈ aiShadingMode.all) ∧
    aiShadingMode.all.map aiShadingMode.code = [1, 2, 3, 4, 5, 6, 7, 8, 8] ∧
    ¬ (aiShadingMode.all.map aiShadingMode.code).Nodup ∧
    ¬ Function.Injective aiShadingMode.code ∧
    (∀ a b : aiShadingMode, a.code = b.code → a ≠ b →
      (a = aiShadingMode.aiShadingMode_CookTorrance ∧
        b = aiShadingMode.aiShadingMode_NoShading) ∨
      (a = aiShadingMode.aiShadingMode_NoShading ∧
        b = aiShadingMode.aiShadingMode_CookTorrance)) := by
  refine ⟨rfl, rfl, by decide, ?_, rfl, by decide, ?_, ?_⟩
  · intro m; cases m <;> decide
  · intro hinj
    exact absurd (@hinj aiShadingMode.aiShadingMode_CookTorrance
      aiShadingMode.aiShadingMode_NoShading rfl) (by decide)
  · intro a b h hne
    cases a <;> cases b <;>
      first
        | exact absurd rfl hne
        | exact absurd h (by decide)
        | exact Or.inl ⟨rfl, rfl⟩
        | exact Or.inr ⟨rfl, rfl⟩

end Assimp
